import Mathlib

/-!
Shallow embedding of the wechat-bot SDK wrapper (src/src/wechatferry/mod.rs and
src/src/wechatferry/loader.rs).

The Rust module keeps process-wide mutable state (dll-loaded flag, command port,
optional command socket, listener port) and talks to the outside world through a
native library and two nng sockets.  We model that state as an explicit record
`WcfState` threaded through every operation, and record every externally
observable step (native calls, socket exchanges, emitted events, spawned
threads) in an append-only `trace` field.  External outcomes that the code
merely reacts to (transport success/failure, decoded response contents, native
return codes, library-load results) are supplied as oracle parameters.

Errors are `anyhow` strings in the source; we keep them as `String` and keep
the exact message texts the code produces.
-/

namespace Wcf

/-- Inbound application message (proto `WxMsg`), reduced to representative
fields; the claims never inspect its contents. -/
structure WxMsg where
  id : Nat
  content : String
  sender : String
  deriving Repr, DecidableEq

/-- Proto `UserInfo` payload, representative fields. -/
structure UserInfo where
  wxid : String
  name : String
  deriving Repr, DecidableEq

/-- The tagged payload of a response envelope (proto `response::Msg`),
a representative subset of the generated oneof variants. -/
inductive ResponseMsg where
  | Status (status : Int)
  | Str (s : String)
  | Wxmsg (m : WxMsg)
  | Ui (u : UserInfo)
  deriving Repr, DecidableEq

/-- Response envelope (proto `Response`): an optional tagged payload. -/
structure Response where
  msg : Option ResponseMsg
  deriving Repr, DecidableEq

/-- The tagged payload of a request envelope (proto `request::Msg`),
a representative subset. -/
inductive RequestMsg where
  | Str (s : String)
  | Flag (b : Bool)
  | Txt (msg receiver aters : String)
  | File (path receiver : String)
  | Xml (content path receiver : String) (xmlType : Int)
  deriving Repr, DecidableEq

/-- The RPC function identifiers used by the operations under study
(proto `Functions`). -/
inductive Functions where
  | FuncIsLogin
  | FuncGetSelfWxid
  | FuncSendTxt
  | FuncSendImg
  | FuncSendFile
  | FuncSendXml
  | FuncSendEmotion
  | FuncEnableRecvTxt
  | FuncDisableRecvTxt
  deriving Repr, DecidableEq

/-- The events sent through the event bus (Rust `Event`). -/
inductive Event where
  | SdkDllLoaded
  | SdkInited (port : Nat) (debug : Bool)
  | SdkDestroyed
  | CmdSocketConnected
  | CmdSocketDisconnected
  | MsgSocketConnected
  | MsgSocketDisconnected
  | MsgReceived (msg : WxMsg)
  deriving Repr, DecidableEq

/-- Externally observable steps, recorded in order of occurrence:
native-library calls, a send+receive attempt on the command socket (tagged
with the function id the encoded request carries), a spawned listener thread,
and every event handed to `send_event`. -/
inductive Action where
  | nativeLoadDll
  | nativeInitSdk (debug : Bool) (port : Int)
  | nativeDestroySdk
  | exchangeAttempted (func : Functions)
  | threadSpawned (port : Nat)
  | event (e : Event)
  deriving Repr, DecidableEq

/-- The process-wide mutable state of the module: the loader's `DLL_LOADED`
flag and its three `OnceCell`s, `CMD_PORT`, `CMD_SOCKET` (presence only),
`MSG_PORT`, plus the observable trace.  Ports are u16 values, 0 meaning
"not inited" / "not listening". -/
structure WcfState where
  dllLoaded : Bool
  sdkLibSet : Bool
  fnInitSet : Bool
  fnDestroySet : Bool
  cmdPort : Nat
  cmdSocket : Option Unit
  msgPort : Nat
  trace : List Action
  deriving Repr, DecidableEq

/-- `send_event`: hand an event to the registered callback (recorded as an
emission in the trace). -/
def send_event (st : WcfState) (e : Event) : WcfState :=
  { st with trace := st.trace ++ [Action.event e] }

/-- Outcome of one send+receive pair on the command socket, as decided by the
remote side / transport: either a transport error (including timeout), or a
received frame which may or may not decode into a `Response`. -/
inductive ExchOutcome where
  | transportError (e : String)
  | received (decoded : Option Response)
  deriving Repr, DecidableEq

/-- `exchange_message_via_cmd_socket`: fail fast when no command socket is
stored; otherwise perform the send+receive (recorded in the trace), and on a
transport error drop the socket, emit `CmdSocketDisconnected`, and return the
formatted error. -/
def exchange_message_via_cmd_socket (st : WcfState) (func : Functions)
    (o : ExchOutcome) : Except String (Option Response) × WcfState :=
  match st.cmdSocket with
  | none => (.error ("cmd_socket disconnected"), st)
  | some _ =>
    let st1 := { st with trace := st.trace ++ [Action.exchangeAttempted func] }
    match o with
    | .transportError e =>
      (.error ("failed to send or receive, error=" ++ e),
       send_event { st1 with cmdSocket := none } Event.CmdSocketDisconnected)
    | .received decoded => (.ok decoded, st1)

/-- `run_cmd` (renamed, the source spells it with an underscore): encode the
request envelope, exchange it via the command socket, decode the reply;
a decode failure is a hard error. -/
def runCmd (st : WcfState) (func : Functions) (msg : Option RequestMsg)
    (o : ExchOutcome) : Except String Response × WcfState :=
  match exchange_message_via_cmd_socket st func o with
  | (.error e, st1) => (.error e, st1)
  | (.ok none, st1) => (.error ("decode error"), st1)
  | (.ok (some response), st1) => (.ok response, st1)

/-- `get_response_status_as_bool`: true exactly when the response payload is
`Status` with value 1. -/
def get_response_status_as_bool (response : Response) : Bool :=
  match response.msg with
  | some (ResponseMsg.Status status) => 1 == status
  | _ => false

/-- `is_login`. -/
def is_login (st : WcfState) (o : ExchOutcome) : Except String Bool × WcfState :=
  match runCmd st Functions.FuncIsLogin none o with
  | (.error e, st1) => (.error e, st1)
  | (.ok response, st1) => (.ok (get_response_status_as_bool response), st1)

/-- `send_text`. -/
def send_text (st : WcfState) (msg receiver aters : String)
    (o : ExchOutcome) : Except String Bool × WcfState :=
  match runCmd st Functions.FuncSendTxt (some (RequestMsg.Txt msg receiver aters)) o with
  | (.error e, st1) => (.error e, st1)
  | (.ok response, st1) => (.ok (get_response_status_as_bool response), st1)

/-- `send_image`: note that, unlike the other send functions, success is
`response.msg.is_some()`. -/
def send_image (st : WcfState) (path receiver : String)
    (o : ExchOutcome) : Except String Bool × WcfState :=
  match runCmd st Functions.FuncSendImg (some (RequestMsg.File path receiver)) o with
  | (.error e, st1) => (.error e, st1)
  | (.ok response, st1) => (.ok response.msg.isSome, st1)

/-- `send_file`. -/
def send_file (st : WcfState) (path receiver : String)
    (o : ExchOutcome) : Except String Bool × WcfState :=
  match runCmd st Functions.FuncSendFile (some (RequestMsg.File path receiver)) o with
  | (.error e, st1) => (.error e, st1)
  | (.ok response, st1) => (.ok (get_response_status_as_bool response), st1)

/-- `send_xml`. -/
def send_xml (st : WcfState) (xml path receiver : String) (xmlType : Int)
    (o : ExchOutcome) : Except String Bool × WcfState :=
  match runCmd st Functions.FuncSendXml (some (RequestMsg.Xml xml path receiver xmlType)) o with
  | (.error e, st1) => (.error e, st1)
  | (.ok response, st1) => (.ok (get_response_status_as_bool response), st1)

/-- `send_emotion`. -/
def send_emotion (st : WcfState) (path receiver : String)
    (o : ExchOutcome) : Except String Bool × WcfState :=
  match runCmd st Functions.FuncSendEmotion (some (RequestMsg.File path receiver)) o with
  | (.error e, st1) => (.error e, st1)
  | (.ok response, st1) => (.ok (get_response_status_as_bool response), st1)

/-- Outcome of one `load_sdk_dll` attempt's external steps: whether
`Library::new` fails, and whether each of the two symbol lookups fails. -/
structure LoadOutcome where
  libLoadError : Option String
  getInitError : Option String
  getDestroyError : Option String
  deriving Repr, DecidableEq

/-- `loader::load_sdk_dll`: behind the `DLL_LOADED` mutex, return `false` at
once when already loaded; otherwise load the library, resolve the two symbols,
fill the `OnceCell`s in source order, set the flag and return `true`. -/
def load_sdk_dll (st : WcfState) (o : LoadOutcome) : Except String Bool × WcfState :=
  if st.dllLoaded then (.ok false, st)
  else
    let st1 := { st with trace := st.trace ++ [Action.nativeLoadDll] }
    match o.libLoadError with
    | some e => (.error e, st1)
    | none =>
      if st1.sdkLibSet then (.error ("failed to save sdk.dll"), st1)
      else
        let st2 := { st1 with sdkLibSet := true }
        match o.getInitError with
        | some e => (.error e, st2)
        | none =>
          match o.getDestroyError with
          | some e => (.error e, st2)
          | none =>
            if st2.fnInitSet then (.error ("failed to set WxInitSDK"), st2)
            else
              let st3 := { st2 with fnInitSet := true }
              if st3.fnDestroySet then (.error ("failed to set WxDestroySDK"), st3)
              else (.ok true, { st3 with fnDestroySet := true, dllLoaded := true })

/-- `loader::wx_init_sdk`: error when the init symbol was never resolved;
otherwise call the native function (its i32 result supplied by the oracle). -/
def wx_init_sdk (st : WcfState) (debug : Bool) (port : Int)
    (nativeResult : Int) : Except String Int × WcfState :=
  if st.fnInitSet then
    (.ok nativeResult, { st with trace := st.trace ++ [Action.nativeInitSdk debug port] })
  else (.error ("no WxInitSDK fn, sdk dll not load"), st)

/-- `loader::wx_destroy_sdk`. -/
def wx_destroy_sdk (st : WcfState) (nativeResult : Int) : Except String Int × WcfState :=
  if st.fnDestroySet then
    (.ok nativeResult, { st with trace := st.trace ++ [Action.nativeDestroySdk] })
  else (.error ("no WxDestroySDK fn, sdk dll not load"), st)

/-- The scoped cleanup token returned by `init` (Rust `CleanupHandler`). -/
structure CleanupHandler where
  auto_clean : Bool
  deriving Repr, DecidableEq

/-- Oracle inputs consumed by one `init` call. -/
structure InitEnv where
  load : LoadOutcome
  initResult : Int
  deriving Repr, DecidableEq

/-- `init(port, debug, auto_clean)`: load the dll (emitting `SdkDllLoaded` when
this call performed the load), reject when `CMD_PORT` is already nonzero, call
the native init, reject a nonzero native result, then record the port, emit
`SdkInited` and hand back a `CleanupHandler`. -/
def init (st : WcfState) (port : Nat) (debug auto_clean : Bool)
    (env : InitEnv) : Except String CleanupHandler × WcfState :=
  match load_sdk_dll st env.load with
  | (.error e, st1) => (.error e, st1)
  | (.ok loadedNow, st1) =>
    let st2 := if loadedNow then send_event st1 Event.SdkDllLoaded else st1
    if st2.cmdPort != 0 then (.error ("wcf already inited"), st2)
    else
      match wx_init_sdk st2 debug (Int.ofNat port) env.initResult with
      | (.error e, st3) => (.error e, st3)
      | (.ok r, st3) =>
        if r != 0 then (.error ("wcf init sdk failed, result=" ++ toString r), st3)
        else (.ok { auto_clean := auto_clean },
              send_event { st3 with cmdPort := port } (Event.SdkInited port debug))

/-- `connect_cmd_socket`: reject when not inited or already connected,
otherwise dial (failure supplied by the oracle), store the socket and emit
`CmdSocketConnected`. -/
def connect_cmd_socket (st : WcfState) (connectError : Option String) :
    Except String Unit × WcfState :=
  if st.cmdPort == 0 then (.error ("wcf not inited"), st)
  else if st.cmdSocket.isSome then (.error ("cmd_socket already connected"), st)
  else
    match connectError with
    | some e => (.error e, st)
    | none => (.ok (), send_event { st with cmdSocket := some () } Event.CmdSocketConnected)

/-- `disconnect_cmd_socket`: take the stored socket; emit
`CmdSocketDisconnected` only when one was present. -/
def disconnect_cmd_socket (st : WcfState) : WcfState :=
  match st.cmdSocket with
  | some _ => send_event { st with cmdSocket := none } Event.CmdSocketDisconnected
  | none => st

/-- `enable_listen`: when `MSG_PORT` is zero, require an inited state, issue
the enable RPC, require some payload in the reply, and record the listener
port as `cmd_port + 1` (u16 arithmetic); finally always spawn a listener
thread on the recorded port. -/
def enable_listen (st : WcfState) (o : ExchOutcome) : Except String Unit × WcfState :=
  if st.msgPort == 0 then
    let cmd_port := st.cmdPort
    if cmd_port == 0 then (.error ("wcf not inited"), st)
    else
      match runCmd st Functions.FuncEnableRecvTxt (some (RequestMsg.Flag true)) o with
      | (.error e, st1) => (.error e, st1)
      | (.ok response, st1) =>
        if response.msg.isNone then (.error ("failed to enable remote listen service"), st1)
        else
          let port := (cmd_port + 1) % 65536
          let st2 := { st1 with msgPort := port }
          (.ok (), { st2 with trace := st2.trace ++ [Action.threadSpawned port] })
  else (.ok (), { st with trace := st.trace ++ [Action.threadSpawned st.msgPort] })

/-- `disable_listen`: return `Ok(false)` untouched when not listening;
otherwise issue the disable RPC; any payload in the reply resets `MSG_PORT`
to zero and yields `Ok(true)`; an empty payload is a hard error and leaves
`MSG_PORT` alone. -/
def disable_listen (st : WcfState) (o : ExchOutcome) : Except String Bool × WcfState :=
  if st.msgPort == 0 then (.ok false, st)
  else
    match runCmd st Functions.FuncDisableRecvTxt none o with
    | (.error e, st1) => (.error e, st1)
    | (.ok response, st1) =>
      match response.msg with
      | some _ => (.ok true, { st1 with msgPort := 0 })
      | none => (.error ("failed to disable recv, None returned from remote side"), st1)

/-- Oracle inputs consumed by one `uninit` call. -/
structure UninitEnv where
  exch : ExchOutcome
  destroyResult : Int
  deriving Repr, DecidableEq

/-- `uninit`: no-op when `CMD_PORT` is zero; otherwise disconnect the command
socket, best-effort `disable_listen` (its result discarded), call the native
destroy (result only logged), reset `CMD_PORT` and emit `SdkDestroyed`.
Returns no error. -/
def uninit (st : WcfState) (env : UninitEnv) : WcfState :=
  if st.cmdPort == 0 then st
  else
    let st1 := disconnect_cmd_socket st
    let st2 := (disable_listen st1 env.exch).2
    let st3 := (wx_destroy_sdk st2 env.destroyResult).2
    send_event { st3 with cmdPort := 0 } Event.SdkDestroyed

/-- `Drop for CleanupHandler`: run `uninit` exactly once when configured with
`auto_clean`, otherwise do nothing. -/
def CleanupHandler.drop (h : CleanupHandler) (st : WcfState) (env : UninitEnv) : WcfState :=
  if h.auto_clean then uninit st env else st

/-- Number of `SdkDestroyed` emissions in a trace. -/
def countDestroyed (l : List Action) : Nat :=
  l.count (Action.event Event.SdkDestroyed)

/-- A freshly started process: nothing loaded, nothing inited. -/
def freshState : WcfState :=
  { dllLoaded := false, sdkLibSet := false, fnInitSet := false, fnDestroySet := false,
    cmdPort := 0, cmdSocket := none, msgPort := 0, trace := [] }

/-- An inited state with a connected command socket on port 10086. -/
def connectedState : WcfState :=
  { dllLoaded := true, sdkLibSet := true, fnInitSet := true, fnDestroySet := true,
    cmdPort := 10086, cmdSocket := some (), msgPort := 0, trace := [] }

/-- Same, but with the listener flag recorded on port 10087. -/
def listeningState : WcfState :=
  { connectedState with msgPort := 10087 }

/-- A response carrying `Status(1)`. -/
def okResponse : Response := { msg := some (ResponseMsg.Status 1) }

/-- A response carrying `Status(0)`. -/
def zeroResponse : Response := { msg := some (ResponseMsg.Status 0) }

/-- A benign oracle for `uninit`. -/
def sampleUninitEnv : UninitEnv :=
  { exch := ExchOutcome.received (some okResponse), destroyResult := 0 }

/-- A fully successful library-load oracle. -/
def sampleLoadOutcome : LoadOutcome :=
  { libLoadError := none, getInitError := none, getDestroyError := none }

/-- C1: `get_response_status_as_bool` returns true iff the response carries a
`Status` payload equal to 1; any other status value, any other variant, or an
absent payload yields false; and `is_login` over an exchange answering
`Status(0)` yields `Ok(false)`. -/
theorem c1_status_helper :
    (∀ r : Response,
      get_response_status_as_bool r = true ↔ r.msg = some (ResponseMsg.Status 1)) ∧
    (∀ st : WcfState, st.cmdSocket = some () →
      (is_login st (ExchOutcome.received (some zeroResponse))).1 = .ok false) := by
  constructor
  · intro r
    rcases r with ⟨m⟩
    rcases m with _ | m
    · simp [get_response_status_as_bool]
    · cases m with
      | Status s =>
        simp only [get_response_status_as_bool, Option.some.injEq, ResponseMsg.Status.injEq,
          beq_iff_eq]
        exact eq_comm
      | Str s => simp [get_response_status_as_bool]
      | Wxmsg w => simp [get_response_status_as_bool]
      | Ui u => simp [get_response_status_as_bool]
  · intro st h
    obtain ⟨d, ls, fi, fd, cp, cs, mp, tr⟩ := st
    simp only [WcfState.cmdSocket] at h
    subst h
    rfl

/-- C1 witness: evaluated at a concrete connected state. -/
theorem c1_status_helper_witness :
    get_response_status_as_bool okResponse = true ∧
    (is_login connectedState (ExchOutcome.received (some zeroResponse))).1 = .ok false :=
  ⟨(c1_status_helper.1 okResponse).mpr rfl, c1_status_helper.2 connectedState rfl⟩

/-- C2: a transport failure during a command exchange removes the stored
socket, emits exactly one `CmdSocketDisconnected` event, and returns the
error; afterwards (and on every state without a stored socket) every RPC
fails with the disconnected error, touching neither the transport nor the
state, until a reconnect. -/
theorem c2_transport_error_disconnects (st : WcfState) (func : Functions)
    (e : String) (h : st.cmdSocket = some ()) :
    exchange_message_via_cmd_socket st func (ExchOutcome.transportError e) =
      (.error ("failed to send or receive, error=" ++ e),
       { st with cmdSocket := none, trace := st.trace ++ [Action.exchangeAttempted func, Action.event Event.CmdSocketDisconnected] }) ∧
    (∀ (st2 : WcfState), st2.cmdSocket = none → ∀ f m o,
      runCmd st2 f m o = (.error ("cmd_socket disconnected"), st2)) := by
  constructor
  · obtain ⟨d, ls, fi, fd, cp, cs, mp, tr⟩ := st
    simp only [WcfState.cmdSocket] at h
    subst h
    simp [exchange_message_via_cmd_socket, send_event]
  · intro st2 h2 f m o
    simp [runCmd, exchange_message_via_cmd_socket, h2]

/-- C2 witness: a timeout on the connected sample state. -/
theorem c2_transport_error_disconnects_witness :
    exchange_message_via_cmd_socket connectedState Functions.FuncIsLogin
        (ExchOutcome.transportError "TimedOut") =
      (.error ("failed to send or receive, error=" ++ "TimedOut"),
       { connectedState with cmdSocket := none, trace := connectedState.trace ++ [Action.exchangeAttempted Functions.FuncIsLogin, Action.event Event.CmdSocketDisconnected] }) ∧
    (∀ (st2 : WcfState), st2.cmdSocket = none → ∀ f m o,
      runCmd st2 f m o = (.error ("cmd_socket disconnected"), st2)) :=
  c2_transport_error_disconnects connectedState Functions.FuncIsLogin "TimedOut" rfl

/-- C3: `disable_listen` is a silent `Ok(false)` no-op when the listener flag
is 0; otherwise it issues the disable RPC, resets the flag and returns
`Ok(true)` on any payload, and on an empty payload errors leaving the flag
untouched (still nonzero). -/
theorem c3_disable_listen_cases (st : WcfState) :
    (∀ o, st.msgPort = 0 → disable_listen st o = (.ok false, st)) ∧
    (st.msgPort ≠ 0 → st.cmdSocket = some () →
      (∀ resp : Response, resp.msg.isSome = true →
        disable_listen st (ExchOutcome.received (some resp)) =
          (.ok true, { st with msgPort := 0, trace := st.trace ++ [Action.exchangeAttempted Functions.FuncDisableRecvTxt] })) ∧
      disable_listen st (ExchOutcome.received (some { msg := none })) =
        (.error ("failed to disable recv, None returned from remote side"),
         { st with trace := st.trace ++ [Action.exchangeAttempted Functions.FuncDisableRecvTxt] })) := by
  obtain ⟨d, ls, fi, fd, cp, cs, mp, tr⟩ := st
  constructor
  · intro o h
    simp only [WcfState.msgPort] at h
    subst h
    rfl
  · intro h hs
    simp only [WcfState.msgPort] at h
    simp only [WcfState.cmdSocket] at hs
    subst hs
    constructor
    · intro resp hresp
      rcases resp with ⟨m⟩
      rcases m with _ | v
      · simp at hresp
      · simp [disable_listen, runCmd, exchange_message_via_cmd_socket, h]
    · simp [disable_listen, runCmd, exchange_message_via_cmd_socket, h]

/-- C3 witness: evaluated at the listening sample state. -/
theorem c3_disable_listen_cases_witness :
    disable_listen connectedState (ExchOutcome.received (some okResponse)) =
      (.ok false, connectedState) ∧
    disable_listen listeningState (ExchOutcome.received (some okResponse)) =
      (.ok true, { listeningState with msgPort := 0, trace := listeningState.trace ++ [Action.exchangeAttempted Functions.FuncDisableRecvTxt] }) :=
  ⟨(c3_disable_listen_cases connectedState).1 _ rfl,
   ((c3_disable_listen_cases listeningState).2 (by decide) rfl).1 okResponse rfl⟩

/-- `uninit` is the identity on a not-inited state. -/
lemma uninit_of_cmdPort_zero (st : WcfState) (env : UninitEnv)
    (h : st.cmdPort = 0) : uninit st env = st := by
  simp [uninit, h]

/-- After `uninit` the command port is always 0. -/
lemma uninit_cmdPort_zero (st : WcfState) (env : UninitEnv) :
    (uninit st env).cmdPort = 0 := by
  by_cases h : st.cmdPort = 0
  · simp [uninit, h]
  · obtain ⟨d, ls, fi, fd, cp, cs, mp, tr⟩ := st
    simp only [WcfState.cmdPort] at h
    simp only [uninit, beq_iff_eq, h, if_neg, ite_false]
    cases cs <;> by_cases hmp : mp = 0 <;>
      simp [disconnect_cmd_socket, disable_listen, runCmd,
        exchange_message_via_cmd_socket, wx_destroy_sdk, send_event, hmp]

/-- The full shape of `uninit` on an inited state with a resolved destroy
symbol: the command-socket disconnect event (when a socket was stored), then
no observable step from the failed best-effort `disable_listen`, then the
native destroy call, then the `SdkDestroyed` emission; the command port ends
at 0 and the listener flag is untouched. -/
lemma uninit_trace_shape (st : WcfState) (env : UninitEnv)
    (hport : st.cmdPort ≠ 0) (hfd : st.fnDestroySet = true) :
    uninit st env =
      { st with
        cmdPort := 0
        cmdSocket := none
        trace := st.trace
          ++ (if st.cmdSocket.isSome then [Action.event Event.CmdSocketDisconnected] else [])
          ++ [Action.nativeDestroySdk, Action.event Event.SdkDestroyed] } := by
  obtain ⟨d, ls, fi, fd, cp, cs, mp, tr⟩ := st
  simp only [WcfState.cmdPort] at hport
  simp only [WcfState.fnDestroySet] at hfd
  subst hfd
  simp only [uninit, beq_iff_eq, hport, ite_false]
  cases cs <;> by_cases hmp : mp = 0 <;>
    simp [disconnect_cmd_socket, disable_listen, runCmd,
      exchange_message_via_cmd_socket, wx_destroy_sdk, send_event, hmp]

/-- C4: dropping a `CleanupHandler` with `auto_clean` set runs the one
`uninit` teardown, whose observable steps occur in order: command-socket
disconnect, best-effort listener disable, native destroy, then port reset and
the `SdkDestroyed` emission; with `auto_clean` unset the drop does nothing. -/
theorem c4_cleanup_drop (h : CleanupHandler) (st : WcfState) (env : UninitEnv) :
    (h.auto_clean = false → CleanupHandler.drop h st env = st) ∧
    (h.auto_clean = true → CleanupHandler.drop h st env = uninit st env) ∧
    (st.cmdPort ≠ 0 → st.fnDestroySet = true →
      (uninit st env).cmdPort = 0 ∧
      (uninit st env).trace = st.trace
        ++ (if st.cmdSocket.isSome then [Action.event Event.CmdSocketDisconnected] else [])
        ++ [Action.nativeDestroySdk, Action.event Event.SdkDestroyed]) := by
  refine ⟨?_, ?_, ?_⟩
  · intro ha
    simp [CleanupHandler.drop, ha]
  · intro ha
    simp [CleanupHandler.drop, ha]
  · intro hport hfd
    rw [uninit_trace_shape st env hport hfd]
    constructor <;> rfl

/-- C4 witness: drop with auto-clean on the connected sample state. -/
theorem c4_cleanup_drop_witness :
    CleanupHandler.drop { auto_clean := true } connectedState sampleUninitEnv =
      uninit connectedState sampleUninitEnv ∧
    (uninit connectedState sampleUninitEnv).cmdPort = 0 ∧
    (uninit connectedState sampleUninitEnv).trace = connectedState.trace
      ++ (if connectedState.cmdSocket.isSome then [Action.event Event.CmdSocketDisconnected] else [])
      ++ [Action.nativeDestroySdk, Action.event Event.SdkDestroyed] :=
  ⟨(c4_cleanup_drop { auto_clean := true } connectedState sampleUninitEnv).2.1 rfl,
   (c4_cleanup_drop { auto_clean := true } connectedState sampleUninitEnv).2.2
     (by decide) rfl⟩

/-- C5: `uninit` is a no-op when the port is already 0, the second of two
consecutive calls changes nothing more (and cannot fail, `uninit` being
total), and one call adds exactly one `SdkDestroyed` emission when inited and
none otherwise. -/
theorem c5_uninit_idempotent (st : WcfState) (e1 e2 : UninitEnv) :
    (st.cmdPort = 0 → uninit st e1 = st) ∧
    uninit (uninit st e1) e2 = uninit st e1 ∧
    countDestroyed (uninit st e1).trace =
      countDestroyed st.trace + (if st.cmdPort = 0 then 0 else 1) := by
  refine ⟨fun h => uninit_of_cmdPort_zero st e1 h, ?_, ?_⟩
  · exact uninit_of_cmdPort_zero _ e2 (uninit_cmdPort_zero st e1)
  · by_cases h : st.cmdPort = 0
    · simp [uninit_of_cmdPort_zero st e1 h, h]
    · obtain ⟨d, ls, fi, fd, cp, cs, mp, tr⟩ := st
      simp only [WcfState.cmdPort] at h
      simp only [WcfState.cmdPort, WcfState.trace, uninit, beq_iff_eq, h, ite_false]
      cases cs <;> by_cases hmp : mp = 0 <;> cases fd <;>
        simp [disconnect_cmd_socket, disable_listen, runCmd,
          exchange_message_via_cmd_socket, wx_destroy_sdk, send_event, hmp,
          countDestroyed, List.count_append]

/-- C5 witness: two consecutive uninits from the connected sample state. -/
theorem c5_uninit_idempotent_witness :
    uninit (uninit connectedState sampleUninitEnv) sampleUninitEnv =
      uninit connectedState sampleUninitEnv ∧
    countDestroyed (uninit connectedState sampleUninitEnv).trace = 1 := by
  refine ⟨(c5_uninit_idempotent connectedState sampleUninitEnv sampleUninitEnv).2.1, ?_⟩
  have h := (c5_uninit_idempotent connectedState sampleUninitEnv sampleUninitEnv).2.2
  simpa [connectedState, countDestroyed] using h

/-- C6: `init` called while the command port is nonzero (whose reachable
states all have the dll loaded, the load-once flag being monotone and set
before the port ever becomes nonzero) fails with the already-inited error and
returns the state untouched, for every choice of parameters and oracle: no
native init call, no `SdkInited` emission, port unchanged. -/
theorem c6_init_already_inited (st : WcfState) (port : Nat)
    (debug auto_clean : Bool) (env : InitEnv)
    (hport : st.cmdPort ≠ 0) (hload : st.dllLoaded = true) :
    init st port debug auto_clean env = (.error ("wcf already inited"), st) := by
  obtain ⟨d, ls, fi, fd, cp, cs, mp, tr⟩ := st
  simp only [WcfState.cmdPort] at hport
  simp only [WcfState.dllLoaded] at hload
  subst hload
  simp [init, load_sdk_dll, hport]

/-- C6 witness: re-init attempt on the connected sample state. -/
theorem c6_init_already_inited_witness :
    init connectedState 9999 true false
        { load := sampleLoadOutcome, initResult := 0 } =
      (.error ("wcf already inited"), connectedState) :=
  c6_init_already_inited connectedState 9999 true false
    { load := sampleLoadOutcome, initResult := 0 } (by decide) rfl

/-- C7: `enable_listen` with the listener flag at 0 demands an inited state,
issues exactly one enable RPC, and records the listener port only on a reply
carrying some payload: then the port becomes `cmdPort + 1` in u16 arithmetic
(so literally `cmdPort + 1` whenever that sum is below the wrap bound) and a
thread is spawned on it, while a reply with no payload errors out leaving the
flag at 0 and spawning nothing; with the flag already nonzero it issues no
RPC, leaves the flag alone, and still spawns a thread on the recorded
port. -/
theorem c7_enable_listen (st : WcfState) :
    (st.msgPort = 0 → st.cmdPort = 0 → ∀ o,
      enable_listen st o = (.error ("wcf not inited"), st)) ∧
    (st.msgPort = 0 → st.cmdPort ≠ 0 → st.cmdSocket = some () →
      (∀ resp : Response, resp.msg.isSome = true →
        enable_listen st (ExchOutcome.received (some resp)) =
          (.ok (), { st with
            msgPort := (st.cmdPort + 1) % 65536
            trace := st.trace
              ++ [Action.exchangeAttempted Functions.FuncEnableRecvTxt,
                  Action.threadSpawned ((st.cmdPort + 1) % 65536)] })) ∧
      (st.cmdPort + 1 < 65536 →
        ∀ resp : Response, resp.msg.isSome = true →
        enable_listen st (ExchOutcome.received (some resp)) =
          (.ok (), { st with
            msgPort := st.cmdPort + 1
            trace := st.trace
              ++ [Action.exchangeAttempted Functions.FuncEnableRecvTxt,
                  Action.threadSpawned (st.cmdPort + 1)] })) ∧
      enable_listen st (ExchOutcome.received (some { msg := none })) =
        (.error ("failed to enable remote listen service"),
         { st with trace := st.trace ++ [Action.exchangeAttempted Functions.FuncEnableRecvTxt] })) ∧
    (st.msgPort ≠ 0 → ∀ o,
      enable_listen st o =
        (.ok (), { st with trace := st.trace ++ [Action.threadSpawned st.msgPort] })) := by
  obtain ⟨d, ls, fi, fd, cp, cs, mp, tr⟩ := st
  refine ⟨?_, ?_, ?_⟩
  · intro hmp hcp o
    simp only [WcfState.msgPort] at hmp
    simp only [WcfState.cmdPort] at hcp
    subst hmp
    subst hcp
    rfl
  · intro hmp hcp hs
    simp only [WcfState.msgPort] at hmp
    simp only [WcfState.cmdPort] at hcp
    simp only [WcfState.cmdSocket] at hs
    subst hmp
    subst hs
    have hgen : ∀ resp : Response, resp.msg.isSome = true →
        enable_listen ⟨d, ls, fi, fd, cp, some (), 0, tr⟩
            (ExchOutcome.received (some resp)) =
          (.ok (), { dllLoaded := d, sdkLibSet := ls, fnInitSet := fi, fnDestroySet := fd,
                     cmdPort := cp, cmdSocket := some (), msgPort := (cp + 1) % 65536,
                     trace := tr
                       ++ [Action.exchangeAttempted Functions.FuncEnableRecvTxt,
                           Action.threadSpawned ((cp + 1) % 65536)] }) := by
      intro resp hresp
      rcases resp with ⟨m⟩
      rcases m with _ | v
      · simp at hresp
      · simp [enable_listen, runCmd, exchange_message_via_cmd_socket, hcp]
    refine ⟨hgen, ?_, ?_⟩
    · intro hlt resp hresp
      rw [hgen resp hresp, Nat.mod_eq_of_lt hlt]
    · simp [enable_listen, runCmd, exchange_message_via_cmd_socket, hcp]
  · intro hmp o
    simp only [WcfState.msgPort] at hmp
    simp [enable_listen, hmp]

/-- C7 witness: on the connected sample state (port 10086) a payload-bearing
reply records listener port 10087, an empty reply errors leaving the flag at
0, and enabling while already listening only spawns a thread. -/
theorem c7_enable_listen_witness :
    enable_listen connectedState (ExchOutcome.received (some okResponse)) =
      (.ok (), { connectedState with
        msgPort := connectedState.cmdPort + 1
        trace := connectedState.trace
          ++ [Action.exchangeAttempted Functions.FuncEnableRecvTxt,
              Action.threadSpawned (connectedState.cmdPort + 1)] }) ∧
    enable_listen connectedState (ExchOutcome.received (some { msg := none })) =
      (.error ("failed to enable remote listen service"),
       { connectedState with
         trace := connectedState.trace ++ [Action.exchangeAttempted Functions.FuncEnableRecvTxt] }) ∧
    enable_listen listeningState (ExchOutcome.received (some okResponse)) =
      (.ok (), { listeningState with
        trace := listeningState.trace ++ [Action.threadSpawned listeningState.msgPort] }) :=
  ⟨((c7_enable_listen connectedState).2.1 rfl (by decide) rfl).2.1 (by decide) okResponse rfl,
   ((c7_enable_listen connectedState).2.1 rfl (by decide) rfl).2.2,
   (c7_enable_listen listeningState).2.2 (by decide) _⟩

/-- C8: on a fresh loader state with a fully successful load oracle,
`load_sdk_dll` performs the one library load with both symbol resolutions and
returns `true`; from then on (on any state with the loaded flag set) every
call returns `false` at once without touching the library. -/
theorem c8_load_once (st : WcfState) (o : LoadOutcome)
    (h : st.dllLoaded = false) (h1 : st.sdkLibSet = false)
    (h2 : st.fnInitSet = false) (h3 : st.fnDestroySet = false)
    (ho1 : o.libLoadError = none) (ho2 : o.getInitError = none)
    (ho3 : o.getDestroyError = none) :
    load_sdk_dll st o =
      (.ok true, { st with
        dllLoaded := true
        sdkLibSet := true
        fnInitSet := true
        fnDestroySet := true
        trace := st.trace ++ [Action.nativeLoadDll] }) ∧
    (∀ (st2 : WcfState), st2.dllLoaded = true → ∀ o2,
      load_sdk_dll st2 o2 = (.ok false, st2)) := by
  constructor
  · obtain ⟨d, ls, fi, fd, cp, cs, mp, tr⟩ := st
    obtain ⟨e1, e2, e3⟩ := o
    simp only [WcfState.dllLoaded, WcfState.sdkLibSet, WcfState.fnInitSet,
      WcfState.fnDestroySet] at h h1 h2 h3
    simp only [LoadOutcome.libLoadError, LoadOutcome.getInitError,
      LoadOutcome.getDestroyError] at ho1 ho2 ho3
    subst h; subst h1; subst h2; subst h3
    subst ho1; subst ho2; subst ho3
    rfl
  · intro st2 h2' o2
    simp [load_sdk_dll, h2']

/-- C8 witness: loading twice from the fresh sample state. -/
theorem c8_load_once_witness :
    load_sdk_dll freshState sampleLoadOutcome =
      (.ok true, { freshState with
        dllLoaded := true
        sdkLibSet := true
        fnInitSet := true
        fnDestroySet := true
        trace := freshState.trace ++ [Action.nativeLoadDll] }) ∧
    load_sdk_dll (load_sdk_dll freshState sampleLoadOutcome).2 sampleLoadOutcome =
      (.ok false, (load_sdk_dll freshState sampleLoadOutcome).2) := by
  have h := c8_load_once freshState sampleLoadOutcome rfl rfl rfl rfl rfl rfl rfl
  exact ⟨h.1, h.2 _ (by rw [h.1]) sampleLoadOutcome⟩

/-- C9: when the listener flag is nonzero, `uninit` leaves it nonzero — the
command socket is already disconnected when `disable_listen` runs, so the
disable RPC fails with the disconnected error (discarded), and the flag is
never reset to signal the listener thread. -/
theorem c9_uninit_never_stops_listener (st : WcfState) (env : UninitEnv)
    (h : st.msgPort ≠ 0) :
    (uninit st env).msgPort = st.msgPort ∧
    (uninit st env).msgPort ≠ 0 ∧
    disable_listen (disconnect_cmd_socket st) env.exch =
      (.error ("cmd_socket disconnected"), disconnect_cmd_socket st) := by
  obtain ⟨d, ls, fi, fd, cp, cs, mp, tr⟩ := st
  simp only [WcfState.msgPort] at h
  have hdis : ∀ st1 : WcfState, st1.cmdSocket = none → st1.msgPort = mp →
      disable_listen st1 env.exch = (.error ("cmd_socket disconnected"), st1) := by
    intro st1 h1 h2
    simp [disable_listen, runCmd, exchange_message_via_cmd_socket, h1, h2, h]
  have hshape : disable_listen (disconnect_cmd_socket ⟨d, ls, fi, fd, cp, cs, mp, tr⟩) env.exch =
      (.error ("cmd_socket disconnected"), disconnect_cmd_socket ⟨d, ls, fi, fd, cp, cs, mp, tr⟩) := by
    apply hdis <;> cases cs <;> simp [disconnect_cmd_socket, send_event]
  refine ⟨?_, ?_, hshape⟩
  · by_cases hcp : cp = 0
    · simp [uninit, hcp]
    · simp only [uninit, WcfState.cmdPort, beq_iff_eq, hcp, ite_false, hshape]
      cases cs <;> simp [disconnect_cmd_socket, send_event, wx_destroy_sdk] <;>
        cases fd <;> simp
  · by_cases hcp : cp = 0
    · simpa [uninit, hcp] using h
    · simp only [uninit, WcfState.cmdPort, beq_iff_eq, hcp, ite_false, hshape]
      cases cs <;> cases fd <;>
        simpa [disconnect_cmd_socket, send_event, wx_destroy_sdk] using h

/-- C9 witness: uninit from the listening sample state keeps the flag at
10087. -/
theorem c9_uninit_never_stops_listener_witness :
    (uninit listeningState sampleUninitEnv).msgPort = listeningState.msgPort ∧
    (uninit listeningState sampleUninitEnv).msgPort ≠ 0 :=
  ⟨(c9_uninit_never_stops_listener listeningState sampleUninitEnv (by decide)).1,
   (c9_uninit_never_stops_listener listeningState sampleUninitEnv (by decide)).2.1⟩

/-- C10: `send_image` reports success exactly when the decoded response
carries any payload at all, so a `Status(0)` reply makes it return `Ok(true)`
while `send_file`, `send_text`, `send_xml` and `send_emotion` return
`Ok(false)` on the same reply. -/
theorem c10_send_image_lenient (st : WcfState) (path receiver : String)
    (h : st.cmdSocket = some ()) :
    (∀ resp : Response,
      (send_image st path receiver (ExchOutcome.received (some resp))).1 =
        .ok resp.msg.isSome) ∧
    (send_image st path receiver (ExchOutcome.received (some zeroResponse))).1 = .ok true ∧
    (send_file st path receiver (ExchOutcome.received (some zeroResponse))).1 = .ok false ∧
    (send_text st path receiver path (ExchOutcome.received (some zeroResponse))).1 = .ok false ∧
    (send_xml st path path receiver 0 (ExchOutcome.received (some zeroResponse))).1 = .ok false ∧
    (send_emotion st path receiver (ExchOutcome.received (some zeroResponse))).1 = .ok false := by
  obtain ⟨d, ls, fi, fd, cp, cs, mp, tr⟩ := st
  simp only [WcfState.cmdSocket] at h
  subst h
  refine ⟨?_, rfl, rfl, rfl, rfl, rfl⟩
  intro resp
  rfl

/-- C10 witness: the contrast at the connected sample state. -/
theorem c10_send_image_lenient_witness :
    (send_image connectedState "a.png" "wxid_1"
      (ExchOutcome.received (some zeroResponse))).1 = .ok true ∧
    (send_file connectedState "a.png" "wxid_1"
      (ExchOutcome.received (some zeroResponse))).1 = .ok false :=
  ⟨(c10_send_image_lenient connectedState "a.png" "wxid_1" rfl).2.1,
   (c10_send_image_lenient connectedState "a.png" "wxid_1" rfl).2.2.1⟩

end Wcf
